import Mathlib

/-!
Verification of the trigger-and-reconciliation engine of `rubin_nights`:
the shutter edge counter (`shutter_counter.py`), the monitor/reconcile loop
(`efd_monitor.monitor_subsystem`), the trigger evaluator
(`pm_handler.is_trigger_met`) and the PM lifecycle controller
(`pm_handler.check_existing_active_pm` / `maintenance_loop`).

Python values flowing through the trigger evaluator are modelled by `PyVal`
(numbers as rationals, strings, booleans); Python `None` is modelled by
`Option.none` at the use sites.  Exceptions are modelled by `Option` results;
log output is modelled by explicit event lists.
-/

namespace RubinNights

/-- A non-null Python value as it appears in config dicts and asset
attributes: a number (int/float conflated, modelled as a rational),
a string, or a boolean. -/
inductive PyVal where
  | num (q : ℚ)
  | str (s : String)
  | bool (b : Bool)
deriving DecidableEq

/-- Digit-list to natural number value. -/
def digitsVal (cs : List Char) : ℕ :=
  cs.foldl (fun a c => a * 10 + (c.toNat - 48)) 0

/-- All characters are decimal digits. -/
def allDigits (cs : List Char) : Bool :=
  cs.all (fun c => c.isDigit)

/-- Parse an unsigned decimal literal (digits, optional single point),
as accepted by Python `float()`, into a rational.  `Option.none` models
`ValueError`. -/
def parseUnsigned (cs : List Char) : Option ℚ :=
  let ip := cs.takeWhile (fun c => c ≠ '.')
  match cs.dropWhile (fun c => c ≠ '.') with
  | [] =>
      if allDigits ip ∧ ip ≠ [] then some (digitsVal ip) else Option.none
  | '.' :: fp =>
      if allDigits ip ∧ allDigits fp ∧ (ip ≠ [] ∨ fp ≠ []) then
        some ((digitsVal ip : ℚ) + (digitsVal fp : ℚ) / (10 : ℚ) ^ fp.length)
      else Option.none
  | _ => Option.none

/-- Python `float(s)` on a string: optional sign, then an unsigned decimal
literal.  `Option.none` models `ValueError`. -/
def parseFloat (s : String) : Option ℚ :=
  match s.toList with
  | '-' :: rest => (parseUnsigned rest).map (fun q => -q)
  | '+' :: rest => parseUnsigned rest
  | cs => parseUnsigned cs

/-- Python `float(x)` on a non-null value: numbers pass through, strings are
parsed, booleans map to 0/1.  `Option.none` models a raised
`ValueError`/`TypeError`. -/
def pyFloat : PyVal → Option ℚ
  | PyVal.num q => some q
  | PyVal.str s => parseFloat s
  | PyVal.bool b => some (if b then 1 else 0)

/-- Decimal rendering of a number for Python `str()`; integral values get a
trailing `.0` as Python floats do (the exact rendering of non-integral
values is abstracted). -/
def numRepr (q : ℚ) : String :=
  if q.den = 1 then toString q.num ++ ".0" else toString q

/-- Python `str(x)` on a non-null value (total, never raises). -/
def pyStr : PyVal → String
  | PyVal.num q => numRepr q
  | PyVal.str s => s
  | PyVal.bool b => if b then "True" else "False"

/-- The boolean caster from `pm_handler.is_trigger_met`:
`lambda x: str(x).lower() in ("true", "1")` (total, never raises). -/
def pyBoolLike (v : PyVal) : Bool :=
  let s := (pyStr v).toLower
  s = "true" || s = "1"

/-- A preventive-maintenance trigger configuration record: the config id and
the four nullable trigger fields (`Option.none` models an absent field or a
JSON null). -/
structure PMConfig where
  id : Option String
  trigger_integer : Option PyVal
  trigger_string : Option PyVal
  trigger_time : Option PyVal
  trigger_True_False : Option PyVal
deriving DecidableEq

/-- Warnings printed by `is_trigger_met`, as abstract events. -/
inductive TrigLog where
  | warnValueNone (id : Option String)
  | warnCastFail (key : String)
  | warnNoTrigger (id : Option String)
deriving DecidableEq

/-- `caster(value) == caster(trigger_value)` for the `float` caster;
`Option.none` models a raised exception on either side. -/
def castEqFloat (a b : PyVal) : Option Bool :=
  match pyFloat a, pyFloat b with
  | some x, some y => some (decide (x = y))
  | _, _ => Option.none

/-- `caster(value) == caster(trigger_value)` for the `str` caster
(never raises). -/
def castEqStr (a b : PyVal) : Option Bool :=
  some (decide (pyStr a = pyStr b))

/-- `caster(value) == caster(trigger_value)` for the boolean-like caster
(never raises). -/
def castEqBool (a b : PyVal) : Option Bool :=
  some (decide (pyBoolLike a = pyBoolLike b))

/-- The body of one iteration of the `for key, caster in trigger_types`
loop in `pm_handler.is_trigger_met`, once a non-null trigger field
`tv` has been found: the `value is None` guard, then the guarded
cast-and-compare with its `except` clause. -/
def evalWith (castEq : PyVal → PyVal → Option Bool) (value : Option PyVal)
    (tv : PyVal) (key : String) (cid : Option String) : Bool × List TrigLog :=
  match value with
  | Option.none => (false, [TrigLog.warnValueNone cid])
  | some v =>
      match castEq v tv with
      | some b => (b, [])
      | Option.none => (false, [TrigLog.warnCastFail key])

/-- `pm_handler.is_trigger_met(value, config)`: walk the four trigger fields
in the fixed order integer, string, time, boolean; the first non-null one is
compared by casting both sides; if none is set, warn and return `False`.
Returns the result together with the warnings printed. -/
def is_trigger_met (value : Option PyVal) (config : PMConfig) :
    Bool × List TrigLog :=
  match config.trigger_integer with
  | some tv => evalWith castEqFloat value tv ("trigger_integer") config.id
  | Option.none =>
    match config.trigger_string with
    | some tv => evalWith castEqStr value tv ("trigger_string") config.id
    | Option.none =>
      match config.trigger_time with
      | some tv => evalWith castEqStr value tv ("trigger_time") config.id
      | Option.none =>
        match config.trigger_True_False with
        | some tv => evalWith castEqBool value tv ("trigger_True_False") config.id
        | Option.none => (false, [TrigLog.warnNoTrigger config.id])

/-- The four trigger comparison kinds, in precedence order. -/
inductive TriggerKind where
  | numeric
  | strKind
  | timeKind
  | boolKind
deriving DecidableEq

/-- The first non-null trigger field of a config, by the fixed precedence
numeric, string, time, boolean (spec-side selection function). -/
def firstTrigger (c : PMConfig) : Option (TriggerKind × PyVal) :=
  match c.trigger_integer with
  | some tv => some (TriggerKind.numeric, tv)
  | Option.none =>
    match c.trigger_string with
    | some tv => some (TriggerKind.strKind, tv)
    | Option.none =>
      match c.trigger_time with
      | some tv => some (TriggerKind.timeKind, tv)
      | Option.none =>
        match c.trigger_True_False with
        | some tv => some (TriggerKind.boolKind, tv)
        | Option.none => Option.none

/-- The cast-and-compare operation of each trigger kind. -/
def castEqOf : TriggerKind → PyVal → PyVal → Option Bool
  | TriggerKind.numeric => castEqFloat
  | TriggerKind.strKind => castEqStr
  | TriggerKind.timeKind => castEqStr
  | TriggerKind.boolKind => castEqBool

/-- The source key string of each trigger kind. -/
def keyOf : TriggerKind → String
  | TriggerKind.numeric => "trigger_integer"
  | TriggerKind.strKind => "trigger_string"
  | TriggerKind.timeKind => "trigger_time"
  | TriggerKind.boolKind => "trigger_True_False"

/-- Spec-side evaluator, written from the spec's words: the first non-null
trigger field alone determines the comparison; a null value or a failed cast
yields `false`; equality is exact after casting both sides. -/
def specTriggered (value : Option PyVal) (c : PMConfig) : Bool :=
  match firstTrigger c with
  | Option.none => false
  | some (k, tv) =>
      match value with
      | Option.none => false
      | some v => (castEqOf k v tv).getD false

/-!
## Edge counter (`shutter_counter.py`)
-/

/-- The rising-edge count computed by `get_shutter_activations`:
`activations = activity & (~activity.shift(1).fillna(False))` followed by
`activations.sum()`.  `shift(1).fillna(False)` pairs each element with its
predecessor, the first element with `False`. -/
def risingEdges (flags : List Bool) : ℕ :=
  (List.zipWith (fun cur prev => cur && !prev) flags (false :: flags)).count true

/-- One telemetry row of the shutter series: the `positionActual0` and
`positionActual1` fields. -/
structure ShutterRow where
  positionActual0 : ℚ
  positionActual1 : ℚ
deriving DecidableEq

/-- The activity flag of one row:
`(result["positionActual0"] > 90) | (result["positionActual1"] > 90)`. -/
def rowActive (r : ShutterRow) : Bool :=
  decide (r.positionActual0 > 90) || decide (r.positionActual1 > 90)

/-- `shutter_counter.get_shutter_activations`, as a function of the queried
series: an empty result returns `0` (after a debug print); otherwise the
rising edges of the derived activity flags are counted. -/
def get_shutter_activations (rows : List ShutterRow) : ℤ :=
  if rows = [] then 0
  else Int.ofNat (risingEdges (rows.map rowActive))

/-- Spec-side edge count, written from the spec's words: the number of
indices `i` with `flag[i]` true and `flag[i-1]` false, where `flag[-1]`
is defined as false. -/
def specEdgeCount (flags : List Bool) : ℕ :=
  ((List.range flags.length).filter
    (fun i => flags.getD i false &&
      !(if i = 0 then false else flags.getD (i - 1) false))).length

/-- Recursive edge count threading the previous flag, used to relate the
source's zip-with-predecessor formulation to the index formulation. -/
def recEdges (prev : Bool) : List Bool → ℕ
  | [] => 0
  | c :: rest => (if c && !prev then 1 else 0) + recEdges c rest

/-!
## Checkpoint store and monitor/reconcile loop (`efd_monitor.py`)
-/

/-- `shutter_counter.load_last_activation`: read the per-asset checkpoint
file; an absent (or unreadable) file yields `0`.  The file is modelled by
its stored count. -/
def load_last_activation (file : Option ℤ) : ℤ :=
  file.getD 0

/-- Outcome of one iteration of the counter branch of
`efd_monitor.monitor_subsystem`:
the value published via `update_cmms_attribute` (if any), the new in-memory
state `(last_cmms_value, last_activation_count)`, and the count passed to
`save_last_activation` (if called). -/
structure StepResult where
  published : Option ℤ
  state : Option (ℤ × ℤ)
  saved : Option ℤ
deriving DecidableEq

/-- One iteration of the counter branch (`attribute == "AC_count"`) of
`monitor_subsystem`.  Inputs: the in-memory state (`Option.none` when
`last_cmms_value is None`, i.e. the first iteration of the process),
the freshly computed `activation_count`, the fetched CMMS value
(`Option.none` when unavailable, then replaced by `0`), and the checkpoint
file contents. -/
def counterCycle (st : Option (ℤ × ℤ)) (activation_count : ℤ)
    (cmms_fetched : Option ℤ) (file : Option ℤ) : StepResult :=
  let cmms_value := cmms_fetched.getD 0
  match st with
  | Option.none =>
      let last_activation_count := load_last_activation file
      let new_activations := activation_count - last_activation_count
      if new_activations > 0 then
        let updated_value := cmms_value + new_activations
        { published := some updated_value,
          state := some (updated_value, last_activation_count),
          saved := some activation_count }
      else
        { published := Option.none,
          state := some (cmms_value, last_activation_count),
          saved := Option.none }
  | some (last_cmms_value, last_activation_count) =>
      if activation_count > last_activation_count then
        let new_activations := activation_count - last_activation_count
        let updated_value := last_cmms_value + new_activations
        { published := some updated_value,
          state := some (updated_value, activation_count),
          saved := some activation_count }
      else
        { published := Option.none,
          state := some (last_cmms_value, last_activation_count),
          saved := Option.none }

/-- The checkpoint value the current cycle computes its delta against:
the loaded file on the first iteration, the in-memory
`last_activation_count` afterwards. -/
def cycleCheckpoint (st : Option (ℤ × ℤ)) (file : Option ℤ) : ℤ :=
  match st with
  | Option.none => load_last_activation file
  | some (_, last_activation_count) => last_activation_count

/-- Python `int(q)`: truncation toward zero, as applied by
`update_cmms_attribute` to the payload value. -/
def pyInt (q : ℚ) : ℤ :=
  if 0 ≤ q then q.floor else -((-q).floor)

/-- A monitored channel's configuration, as far as branch dispatch in
`monitor_subsystem` needs it. -/
structure ChannelConfig where
  measurement : String
  fieldName : String
  asset_id : String
  attributeName : String
deriving DecidableEq

/-- The counter-branch dispatch condition of `monitor_subsystem`:
`attribute == "AC_count" and measurement == "lsst.sal.MTDome.apertureShutter"`. -/
def isCounterChannel (cfg : ChannelConfig) : Bool :=
  decide (cfg.attributeName = "AC_count") &&
    decide (cfg.measurement = "lsst.sal.MTDome.apertureShutter")

/-- One iteration of `monitor_subsystem` for a channel `cfg`: the counter
branch runs `counterCycle`; the non-counter branch publishes the freshly
fetched value (if any) through `update_cmms_attribute`, whose payload is
`int(value)`, touching neither the in-memory state nor the checkpoint
file. -/
def monitorStep (cfg : ChannelConfig) (st : Option (ℤ × ℤ))
    (activation_count : ℤ) (cmms_fetched : Option ℤ) (file : Option ℤ)
    (fetched : Option ℚ) : StepResult :=
  if isCounterChannel cfg then
    counterCycle st activation_count cmms_fetched file
  else
    match fetched with
    | some v => { published := some (pyInt v), state := st, saved := Option.none }
    | Option.none => { published := Option.none, state := st, saved := Option.none }

/-!
## PM lifecycle controller (`pm_handler.py`)
-/

/-- ASCII lower-casing of one character, as Python `str.lower` acts on the
ASCII status strings involved. -/
def lowerChar (c : Char) : Char :=
  if 65 ≤ c.toNat ∧ c.toNat ≤ 90 then Char.ofNat (c.toNat + 32) else c

/-- ASCII lower-casing of a string: the embedding of Python `str.lower`
applied by `check_existing_active_pm` to `_status_description`. -/
def lowerStr (s : String) : String :=
  String.mk (s.data.map lowerChar)

/-- A preventive-maintenance instance as returned by the registry's list
endpoint: its id, the id of the owning trigger config
(`PrevMaintConfig`), and its `_status_description`. -/
structure PMInstance where
  id : String
  prevMaintConfig : String
  statusDescription : String
deriving DecidableEq

/-- `pm_handler.check_existing_active_pm`, as a function of the PM list the
registry returns: scan for the first instance whose `PrevMaintConfig`
matches and whose lower-cased status is not `"aborted"`; return whether one
exists and its id. -/
def check_existing_active_pm (pms : List PMInstance) (config_id : String) :
    Bool × Option String :=
  match pms with
  | [] => (false, Option.none)
  | pm :: rest =>
      if pm.prevMaintConfig = config_id then
        if lowerStr pm.statusDescription ≠ "aborted" then (true, some pm.id)
        else check_existing_active_pm rest config_id
      else check_existing_active_pm rest config_id

/-- Number of open (non-aborted, case-insensitively) PM instances owned by
a given config id, as observed through the registry's list endpoint. -/
def countOpen (pms : List PMInstance) (config_id : String) : ℕ :=
  (pms.filter (fun pm =>
    decide (pm.prevMaintConfig = config_id) &&
      decide (lowerStr pm.statusDescription ≠ "aborted"))).length

/-- One maintenance-config record as consumed by `maintenance_loop`:
its id, the related asset (if any), and its trigger fields. -/
structure MaintConfig where
  id : String
  asset_related : Option String
  trig : PMConfig
deriving DecidableEq

/-- The body of `maintenance_loop` for one config, as a transformer of the
registry's PM list: skip when the config has no related asset, no matching
system channel, an unavailable asset value, or an unmet trigger; otherwise
check for an existing active PM and, only when none is found, create a new
instance (the remote assigns its id and initial status). -/
def processConfig (pms : List PMInstance) (cfg : MaintConfig)
    (systemCfgFound : Bool) (asset_value : Option PyVal)
    (newPmId : String) (newStatus : String) : List PMInstance :=
  match cfg.asset_related with
  | Option.none => pms
  | some _ =>
    match systemCfgFound with
    | false => pms
    | true =>
      match asset_value with
      | Option.none => pms
      | some v =>
        match (is_trigger_met (some v) cfg.trig).1 with
        | false => pms
        | true =>
          match (check_existing_active_pm pms cfg.id).1 with
          | true => pms
          | false => pms ++ [⟨newPmId, cfg.id, newStatus⟩]

/-- One full sweep of `maintenance_loop` over a list of configs (each
paired with its environment: channel-found flag, asset value, and the
remote-assigned id and status of a created PM). -/
def maintenanceSweep (pms : List PMInstance)
    (items : List (MaintConfig × Bool × Option PyVal × String × String)) :
    List PMInstance :=
  items.foldl
    (fun acc it => processConfig acc it.1 it.2.1 it.2.2.1 it.2.2.2.1 it.2.2.2.2)
    pms

/-- Generalisation of `specEdgeCount` with an arbitrary virtual predecessor
for index `-1`, used for the induction relating it to the source's
formulation. -/
def specEdgeCountFrom (prev : Bool) (flags : List Bool) : ℕ :=
  ((List.range flags.length).filter
    (fun i => flags.getD i false &&
      !(if i = 0 then prev else flags.getD (i - 1) false))).length

/-- The generator channel from `sistems.py` (a non-counter channel: its
attribute is `NoiseLevel`, not `AC_count`). -/
def engineHoursChannel : ChannelConfig :=
  { measurement := "lsst.sal.ESS.agcGenset150", fieldName := "engineHours",
    asset_id := "502673", attributeName := "NoiseLevel" }

/-- Example trigger config with only the numeric field set (to `12.0`). -/
def cfgNum12 : PMConfig :=
  { id := some ("cfg-num"), trigger_integer := some (PyVal.num 12),
    trigger_string := Option.none, trigger_time := Option.none,
    trigger_True_False := Option.none }

/-- Example trigger config with only the string field set (to `"open"`). -/
def cfgStrOpen : PMConfig :=
  { id := some ("cfg-str"), trigger_integer := Option.none,
    trigger_string := some (PyVal.str "open"), trigger_time := Option.none,
    trigger_True_False := Option.none }

/-- Example trigger config with no trigger field set (misconfigured). -/
def cfgUnset : PMConfig :=
  { id := some ("cfg-unset"), trigger_integer := Option.none,
    trigger_string := Option.none, trigger_time := Option.none,
    trigger_True_False := Option.none }

/-- Example trigger config with only the numeric field set (to `5`). -/
def cfgNum5 : PMConfig :=
  { id := some ("cfg-num5"), trigger_integer := some (PyVal.num 5),
    trigger_string := Option.none, trigger_time := Option.none,
    trigger_True_False := Option.none }

/-- Example maintenance config whose numeric trigger fires at `5`. -/
def maintCfg1 : MaintConfig :=
  { id := "c1", asset_related := some ("a1"), trig := cfgNum5 }

/-!
## Helper lemmas
-/

/-- The zip-with-predecessor count of the source equals the recursive
threaded count, for any virtual predecessor. -/
theorem zipWith_count_eq_recEdges (flags : List Bool) :
    ∀ prev : Bool,
      (List.zipWith (fun cur p => cur && !p) flags (prev :: flags)).count true
        = recEdges prev flags := by
  induction flags with
  | nil => intro prev; rfl
  | cons c rest ih =>
      intro prev
      have hz :
          List.zipWith (fun cur p => cur && !p) (c :: rest) (prev :: c :: rest)
            = (c && !prev) :: List.zipWith (fun cur p => cur && !p) rest (c :: rest) := rfl
      rw [hz, List.count_cons, ih c, recEdges]
      cases hcp : (c && !prev) <;> simp [hcp, Nat.add_comm]

/-- Filtering a successor-mapped index list is filtering the shifted
predicate. -/
theorem length_filter_map_succ (p : ℕ → Bool) (l : List ℕ) :
    (List.filter p (l.map Nat.succ)).length
      = (List.filter (fun i => p (i + 1)) l).length := by
  induction l with
  | nil => rfl
  | cons a t ih =>
      by_cases h : p (a + 1) = true
      · simp [List.filter_cons, Nat.succ_eq_add_one, h, ih]
      · simp [List.filter_cons, Nat.succ_eq_add_one, h, ih]

/-- Unfolding of the index-based edge count over a cons cell. -/
theorem specEdgeCountFrom_cons (prev c : Bool) (rest : List Bool) :
    specEdgeCountFrom prev (c :: rest)
      = (if c && !prev then 1 else 0) + specEdgeCountFrom c rest := by
  have hfun :
      (fun i : ℕ => (c :: rest).getD (i + 1) false &&
          !(if i + 1 = 0 then prev else (c :: rest).getD (i + 1 - 1) false))
        = (fun i : ℕ => rest.getD i false &&
          !(if i = 0 then c else rest.getD (i - 1) false)) := by
    funext i
    cases i with
    | zero => simp
    | succ j => simp [List.getD_cons_succ]
  unfold specEdgeCountFrom
  rw [List.length_cons, List.range_succ_eq_map]
  rw [List.filter_cons]
  have h0 : ((c :: rest).getD 0 false &&
      !(if (0 : ℕ) = 0 then prev else (c :: rest).getD (0 - 1) false))
        = (c && !prev) := by simp
  rw [h0]
  have hrec :
      (List.filter
          (fun i => (c :: rest).getD i false &&
            !(if i = 0 then prev else (c :: rest).getD (i - 1) false))
          (List.map Nat.succ (List.range rest.length))).length
        = (List.filter
            (fun i => rest.getD i false &&
              !(if i = 0 then c else rest.getD (i - 1) false))
            (List.range rest.length)).length := by
    rw [length_filter_map_succ
      (fun i => (c :: rest).getD i false &&
        !(if i = 0 then prev else (c :: rest).getD (i - 1) false)) (List.range rest.length)]
    have := congrArg
      (fun p => (List.filter p (List.range rest.length)).length) hfun
    simpa using this
  cases hcp : (c && !prev) with
  | true =>
      simp only [eq_self_iff_true, if_true, List.length_cons]
      rw [hrec]
      omega
  | false =>
      simp only [Bool.false_eq_true, if_false]
      rw [hrec]
      omega

/-- The index-based edge count equals the recursive threaded count. -/
theorem specEdgeCountFrom_eq_recEdges (flags : List Bool) :
    ∀ prev : Bool, specEdgeCountFrom prev flags = recEdges prev flags := by
  induction flags with
  | nil => intro prev; rfl
  | cons c rest ih =>
      intro prev
      rw [specEdgeCountFrom_cons, recEdges, ih c]

/-- The spec's index-based count is the generalised one started from a
false predecessor. -/
theorem specEdgeCount_eq_from (flags : List Bool) :
    specEdgeCount flags = specEdgeCountFrom false flags := rfl

/-- The source's rising-edge count coincides with the spec's index-based
count on every flag sequence. -/
theorem risingEdges_eq_specEdgeCount (flags : List Bool) :
    risingEdges flags = specEdgeCount flags := by
  rw [specEdgeCount_eq_from, specEdgeCountFrom_eq_recEdges]
  exact zipWith_count_eq_recEdges flags false

/-- The result component of one loop-body step of `is_trigger_met`. -/
theorem evalWith_fst (ce : PyVal → PyVal → Option Bool) (value : Option PyVal)
    (tv : PyVal) (key : String) (cid : Option String) :
    (evalWith ce value tv key cid).1
      = (match value with
         | Option.none => false
         | some v => (ce v tv).getD false) := by
  cases value with
  | none => rfl
  | some v =>
      cases h : ce v tv with
      | none => simp [evalWith, h]
      | some b => simp [evalWith, h]

/-- The boolean result of `is_trigger_met` coincides with the spec-side
first-non-null-field evaluator on every value and config. -/
theorem is_trigger_met_fst_eq (value : Option PyVal) (c : PMConfig) :
    (is_trigger_met value c).1 = specTriggered value c := by
  obtain ⟨cid, ti, ts, tt, tb⟩ := c
  cases ti with
  | some tv =>
      simp only [is_trigger_met, specTriggered, firstTrigger, evalWith_fst, castEqOf]
  | none =>
      cases ts with
      | some tv =>
          simp only [is_trigger_met, specTriggered, firstTrigger, evalWith_fst, castEqOf]
      | none =>
          cases tt with
          | some tv =>
              simp only [is_trigger_met, specTriggered, firstTrigger, evalWith_fst,
                castEqOf]
          | none =>
              cases tb with
              | some tv =>
                  simp only [is_trigger_met, specTriggered, firstTrigger, evalWith_fst,
                    castEqOf]
              | none => rfl

/-- `check_existing_active_pm` reports an open PM exactly when the list has
a matching instance whose lower-cased status is not aborted. -/
theorem check_existing_true_iff (pms : List PMInstance) (cid : String) :
    (check_existing_active_pm pms cid).1 = true ↔
      ∃ pm ∈ pms, pm.prevMaintConfig = cid ∧
        lowerStr pm.statusDescription ≠ "aborted" := by
  induction pms with
  | nil => simp [check_existing_active_pm]
  | cons pm rest ih =>
      by_cases h1 : pm.prevMaintConfig = cid
      · by_cases h2 : lowerStr pm.statusDescription = "aborted"
        · simp [check_existing_active_pm, h1, h2, ih]
        · simp [check_existing_active_pm, h1, h2]
      · simp [check_existing_active_pm, h1, ih]

/-- When the check reports no open PM, the open count for that config is
zero. -/
theorem countOpen_eq_zero_of_check_false (pms : List PMInstance) (cid : String)
    (h : (check_existing_active_pm pms cid).1 = false) :
    countOpen pms cid = 0 := by
  have hne : ¬ ∃ pm ∈ pms, pm.prevMaintConfig = cid ∧
      lowerStr pm.statusDescription ≠ "aborted" := by
    intro hex
    have htrue := (check_existing_true_iff pms cid).mpr hex
    rw [htrue] at h
    exact Bool.noConfusion h
  unfold countOpen
  rw [List.length_eq_zero]
  rw [List.filter_eq_nil_iff]
  intro pm hm
  intro hp
  apply hne
  refine ⟨pm, hm, ?_⟩
  simpa using hp

/-- Appending one instance changes the open count only for its own
config. -/
theorem countOpen_append_single (pms : List PMInstance) (pm : PMInstance)
    (cid : String) :
    countOpen (pms ++ [pm]) cid = countOpen pms cid +
      (if pm.prevMaintConfig = cid ∧ lowerStr pm.statusDescription ≠ "aborted"
       then 1 else 0) := by
  unfold countOpen
  rw [List.filter_append, List.length_append]
  by_cases h : pm.prevMaintConfig = cid ∧ lowerStr pm.statusDescription ≠ "aborted"
  · simp [List.filter_cons, h]
  · simp [List.filter_cons, h]

/-- One config evaluation of the maintenance loop preserves the
at-most-one-open-PM bound for every config id. -/
theorem processConfig_preserves (pms : List PMInstance) (cfg : MaintConfig)
    (b : Bool) (av : Option PyVal) (pid stt : String)
    (h : ∀ cid, countOpen pms cid ≤ 1) :
    ∀ cid, countOpen (processConfig pms cfg b av pid stt) cid ≤ 1 := by
  intro cid
  unfold processConfig
  split
  · exact h cid
  · split
    · exact h cid
    · split
      · exact h cid
      · split
        · exact h cid
        · split
          · exact h cid
          · rename_i hchk
            rw [countOpen_append_single]
            by_cases hcid : cfg.id = cid
            · subst hcid
              rw [countOpen_eq_zero_of_check_false pms cfg.id hchk]
              split <;> omega
            · have hno : ¬ ((⟨pid, cfg.id, stt⟩ : PMInstance).prevMaintConfig = cid ∧
                  lowerStr (⟨pid, cfg.id, stt⟩ : PMInstance).statusDescription
                    ≠ "aborted") := by
                intro hcon
                exact hcid hcon.1
              rw [if_neg hno]
              simpa using h cid

/-- A full maintenance sweep preserves the at-most-one-open-PM bound. -/
theorem maintenanceSweep_preserves (items :
      List (MaintConfig × Bool × Option PyVal × String × String)) :
    ∀ pms : List PMInstance, (∀ cid, countOpen pms cid ≤ 1) →
      ∀ cid, countOpen (maintenanceSweep pms items) cid ≤ 1 := by
  induction items with
  | nil => intro pms h cid; exact h cid
  | cons it rest ih =>
      intro pms h cid
      have hstep := processConfig_preserves pms it.1 it.2.1 it.2.2.1
        it.2.2.2.1 it.2.2.2.2 h
      exact ih _ hstep cid

/-!
## Claim theorems
-/

/-- Claim C1: reconciler publish rule — on the cycle that consults the
registry (first iteration, `last_cmms_value is None`), with persisted
checkpoint `c`, fresh window count `f` and fetched registry value `r`
(absent treated as 0), if `f > c` the loop publishes `r + (f - c)` and
persists checkpoint `f`. -/
theorem reconciler_publish_rule (f : ℤ) (r file : Option ℤ)
    (h : f > load_last_activation file) :
    (counterCycle Option.none f r file).published
        = some (r.getD 0 + (f - load_last_activation file))
      ∧ (counterCycle Option.none f r file).saved = some f := by
  have hpos : f - load_last_activation file > 0 := by omega
  constructor <;> simp [counterCycle, hpos]

/-- Witness for claim C1 at the spec's two examples: checkpoint 5, fresh 8,
registry 100 publishes 103 and saves 8; no checkpoint, fresh 3, registry
absent publishes 3 and saves 3. -/
theorem reconciler_publish_rule_witness :
    ((8 : ℤ) > load_last_activation (some 5))
      ∧ (counterCycle Option.none 8 (some 100) (some 5)).published = some 103
      ∧ (counterCycle Option.none 8 (some 100) (some 5)).saved = some 8
      ∧ (counterCycle Option.none 3 Option.none Option.none).published = some 3
      ∧ (counterCycle Option.none 3 Option.none Option.none).saved = some 3 := by
  have h1 := reconciler_publish_rule 8 (some 100) (some 5) (by decide)
  have h2 := reconciler_publish_rule 3 Option.none Option.none (by decide)
  refine ⟨by decide, ?_, h1.2, ?_, h2.2⟩
  · rw [h1.1]; decide
  · rw [h2.1]; decide

/-- Claim C2 counterexample: on an empty input series
`get_shutter_activations` returns the plain count `0`; there is no
distinct no-data marker in its result. -/
theorem edge_count_empty_counterexample :
    get_shutter_activations [] = 0 := rfl

/-- Claim C2 (amended): for an empty input series the edge counter returns
the count `0`; the no-data case is reported only by a debug log, not by a
value distinct from zero. -/
theorem edge_count_empty_returns_zero (rows : List ShutterRow)
    (h : rows = []) : get_shutter_activations rows = 0 := by
  rw [h]
  rfl

/-- Witness for the amended claim C2. -/
theorem edge_count_empty_returns_zero_witness :
    (([] : List ShutterRow) = []) ∧ get_shutter_activations [] = 0 :=
  ⟨rfl, edge_count_empty_returns_zero [] rfl⟩

/-- Claim C3: on every non-empty flag sequence the source's rising-edge
count equals the number of indices `i` with `flag[i]` true and `flag[i-1]`
false (`flag[-1]` defined false); in particular a single true flag counts
1 and `[false, true, true, false, true]` counts 2. -/
theorem edge_count_rising_edges :
    (∀ flags : List Bool, flags ≠ [] → risingEdges flags = specEdgeCount flags)
      ∧ risingEdges [true] = 1
      ∧ risingEdges [false, true, true, false, true] = 2 :=
  ⟨fun flags _ => risingEdges_eq_specEdgeCount flags, rfl, rfl⟩

/-- Witness for claim C3 at the singleton true sequence. -/
theorem edge_count_rising_edges_witness :
    (([true] : List Bool) ≠ []) ∧ risingEdges [true] = specEdgeCount [true] :=
  ⟨by decide, edge_count_rising_edges.1 [true] (by decide)⟩

/-- Claim C4: `is_trigger_met` inspects the four trigger fields in the
fixed precedence numeric, string, time, boolean; with at least one field
set, its result is the exact cast-both-sides comparison of the first
non-null field, the remaining fields being ignored; the value cast "12"
against numeric trigger 12.0 and "open" against string trigger "open" are
both met. -/
theorem trigger_precedence_and_cast :
    (∀ (v : Option PyVal) (c : PMConfig), (firstTrigger c).isSome = true →
        (is_trigger_met v c).1 = specTriggered v c)
      ∧ (is_trigger_met (some (PyVal.str "12")) cfgNum12).1 = true
      ∧ (is_trigger_met (some (PyVal.str "open")) cfgStrOpen).1 = true := by
  refine ⟨fun v c _ => is_trigger_met_fst_eq v c, ?_, ?_⟩ <;> decide

/-- Witness for claim C4 at the numeric example config. -/
theorem trigger_precedence_and_cast_witness :
    ((firstTrigger cfgNum12).isSome = true)
      ∧ (is_trigger_met (some (PyVal.str "12")) cfgNum12).1
          = specTriggered (some (PyVal.str "12")) cfgNum12 :=
  ⟨by decide,
    trigger_precedence_and_cast.1 (some (PyVal.str "12")) cfgNum12 (by decide)⟩

/-- Claim C5: `is_trigger_met` is total and models every exception path as
a `false` result: a null value yields false (warning with the config id),
a config with no trigger field set yields false with a misconfiguration
warning, and a failed cast of the value against the selected trigger kind
yields false. -/
theorem trigger_never_throws :
    (∀ c : PMConfig, (is_trigger_met Option.none c).1 = false)
      ∧ (∀ (c : PMConfig) (k : TriggerKind) (tv : PyVal),
          firstTrigger c = some (k, tv) →
          is_trigger_met Option.none c = (false, [TrigLog.warnValueNone c.id]))
      ∧ (∀ (c : PMConfig) (k : TriggerKind) (tv : PyVal) (v : PyVal),
          firstTrigger c = some (k, tv) → castEqOf k v tv = Option.none →
          (is_trigger_met (some v) c).1 = false)
      ∧ (∀ (v : Option PyVal) (c : PMConfig), firstTrigger c = Option.none →
          is_trigger_met v c = (false, [TrigLog.warnNoTrigger c.id])) := by
  refine ⟨?_, ?_, ?_, ?_⟩
  · intro c
    obtain ⟨cid, ti, ts, tt, tb⟩ := c
    cases ti with
    | some tv => rfl
    | none =>
        cases ts with
        | some tv => rfl
        | none =>
            cases tt with
            | some tv => rfl
            | none =>
                cases tb with
                | some tv => rfl
                | none => rfl
  · intro c k tv hft
    obtain ⟨cid, ti, ts, tt, tb⟩ := c
    cases ti with
    | some tv2 => rfl
    | none =>
        cases ts with
        | some tv2 => rfl
        | none =>
            cases tt with
            | some tv2 => rfl
            | none =>
                cases tb with
                | some tv2 => rfl
                | none => simp [firstTrigger] at hft
  · intro c k tv v hft hcast
    rw [is_trigger_met_fst_eq]
    simp [specTriggered, hft, hcast]
  · intro v c hft
    obtain ⟨cid, ti, ts, tt, tb⟩ := c
    cases ti with
    | some tv => simp [firstTrigger] at hft
    | none =>
        cases ts with
        | some tv => simp [firstTrigger] at hft
        | none =>
            cases tt with
            | some tv => simp [firstTrigger] at hft
            | none =>
                cases tb with
                | some tv => simp [firstTrigger] at hft
                | none =>
                    cases v with
                    | none => rfl
                    | some v0 => rfl

/-- Witness for claim C5: a null value against numeric trigger 5 is false;
an unset config warns and is false; the uncastable value cast of "open"
against the numeric trigger is false. -/
theorem trigger_never_throws_witness :
    (is_trigger_met Option.none cfgNum5).1 = false
      ∧ is_trigger_met (some (PyVal.num 7)) cfgUnset
          = (false, [TrigLog.warnNoTrigger cfgUnset.id])
      ∧ (is_trigger_met (some (PyVal.str "open")) cfgNum12).1 = false :=
  ⟨trigger_never_throws.1 cfgNum5,
    trigger_never_throws.2.2.2 (some (PyVal.num 7)) cfgUnset (by decide),
    trigger_never_throws.2.2.1 cfgNum12 TriggerKind.numeric (PyVal.num 12)
      (PyVal.str "open") (by decide) (by decide)⟩

/-- Claim C6: the existing-PM check treats a matching instance as open
(blocking) exactly when its status, compared case-insensitively, is not
aborted; a matching record with status spelled aborted in any letter case
permits creation, while any other status such as Acceptance blocks it. -/
theorem existing_pm_blocks_iff :
    (∀ (pms : List PMInstance) (cid : String),
        (check_existing_active_pm pms cid).1 = true ↔
          ∃ pm ∈ pms, pm.prevMaintConfig = cid ∧
            lowerStr pm.statusDescription ≠ "aborted")
      ∧ (check_existing_active_pm [⟨("pm1"), ("c1"), ("Aborted")⟩] ("c1")).1 = false
      ∧ (check_existing_active_pm [⟨("pm1"), ("c1"), ("aBoRtEd")⟩] ("c1")).1 = false
      ∧ (check_existing_active_pm [⟨("pm1"), ("c1"), ("Acceptance")⟩] ("c1")).1
          = true := by
  refine ⟨check_existing_true_iff, ?_, ?_, ?_⟩ <;> decide

/-- Witness for claim C6: an Acceptance-status match is reported open via
the characterisation. -/
theorem existing_pm_blocks_iff_witness :
    (check_existing_active_pm [⟨("pm2"), ("c2"), ("Acceptance")⟩] ("c2")).1
      = true :=
  (existing_pm_blocks_iff.1 [⟨("pm2"), ("c2"), ("Acceptance")⟩] ("c2")).mpr
    ⟨⟨"pm2", "c2", "Acceptance"⟩, by decide, by decide, by decide⟩

/-- Claim C7: in the sequential model of the maintenance loop, every sweep
performs the existing-PM check before each creation, so the at-most-one
open (non-aborted) PM instance per config id bound is preserved across
every evaluation cycle and every config. -/
theorem at_most_one_open_pm :
    ∀ (pms : List PMInstance)
      (items : List (MaintConfig × Bool × Option PyVal × String × String)),
      (∀ cid, countOpen pms cid ≤ 1) →
      ∀ cid, countOpen (maintenanceSweep pms items) cid ≤ 1 :=
  fun pms items h => maintenanceSweep_preserves items pms h

/-- Witness for claim C7: starting from an empty registry, a sweep whose
single config fires its trigger creates one PM and keeps the bound. -/
theorem at_most_one_open_pm_witness :
    countOpen (maintenanceSweep []
      [(maintCfg1, true, some (PyVal.num 5), ("pm9"), ("Processing"))]) ("c1")
      ≤ 1 :=
  at_most_one_open_pm []
    [(maintCfg1, true, some (PyVal.num 5), ("pm9"), ("Processing"))]
    (fun _ => Nat.zero_le 1) ("c1")

/-- Claim C8: reconciler frame condition — when the fresh window count does
not exceed the checkpoint the cycle publishes nothing, saves nothing, the
checkpoint value (persisted and in-memory) stays as it was, and an
established in-memory state is left entirely unchanged. -/
theorem reconciler_frame_no_publish (st : Option (ℤ × ℤ)) (f : ℤ)
    (r file : Option ℤ) (h : f ≤ cycleCheckpoint st file) :
    (counterCycle st f r file).published = Option.none
      ∧ (counterCycle st f r file).saved = Option.none
      ∧ (counterCycle st f r file).state.map Prod.snd
          = some (cycleCheckpoint st file)
      ∧ (∀ p : ℤ × ℤ, st = some p → (counterCycle st f r file).state = st) := by
  cases st with
  | none =>
      have hc : cycleCheckpoint Option.none file = load_last_activation file := rfl
      rw [hc] at h
      have hneg : ¬ (f - load_last_activation file > 0) := by omega
      refine ⟨?_, ?_, ?_, ?_⟩
      · simp [counterCycle, hneg]
      · simp [counterCycle, hneg]
      · simp [counterCycle, hneg, cycleCheckpoint]
      · intro p hp
        exact Option.noConfusion hp
  | some p =>
      obtain ⟨lc, la⟩ := p
      have hc : cycleCheckpoint (some (lc, la)) file = la := rfl
      rw [hc] at h
      have hneg : ¬ (f > la) := by omega
      refine ⟨?_, ?_, ?_, ?_⟩
      · simp [counterCycle, hneg]
      · simp [counterCycle, hneg]
      · simp [counterCycle, hneg, cycleCheckpoint]
      · intro q hq
        simp [counterCycle, hneg]

/-- Witness for claim C8 at the spec's example (checkpoint 5, fresh 5,
registry 100) and at an established steady state. -/
theorem reconciler_frame_no_publish_witness :
    ((5 : ℤ) ≤ cycleCheckpoint Option.none (some 5))
      ∧ (counterCycle Option.none 5 (some 100) (some 5)).published = Option.none
      ∧ (counterCycle Option.none 5 (some 100) (some 5)).saved = Option.none
      ∧ (counterCycle (some (100, 5)) 5 (some 100) (some 5)).state
          = some (100, 5) := by
  have h1 := reconciler_frame_no_publish Option.none 5 (some 100) (some 5)
    (by decide)
  have h2 := reconciler_frame_no_publish (some (100, 5)) 5 (some 100) (some 5)
    (by decide)
  exact ⟨by decide, h1.1, h1.2.1, h2.2.2.2 (100, 5) rfl⟩

/-- Claim C9 counterexample: for the non-counter generator channel a
fetched value of 12.5 is published as the integer 12, because
`update_cmms_attribute` sends `int(value)` — not the fetched value
unchanged. -/
theorem passthrough_truncates_counterexample :
    (monitorStep engineHoursChannel Option.none 0 Option.none Option.none
        (some (mkRat 25 2))).published = some 12
      ∧ ((12 : ℚ) ≠ mkRat 25 2) := by
  constructor
  · decide
  · decide

/-- Claim C9 (amended): for every non-counter channel, whenever the
telemetry query returns a value `v` the cycle publishes `int(v)` (`v`
truncated toward zero) to the registry attribute, leaves the in-memory
state unchanged, and neither reads nor writes any checkpoint. -/
theorem passthrough_publishes_int (cfg : ChannelConfig) (st : Option (ℤ × ℤ))
    (a : ℤ) (cf file : Option ℤ) (v : ℚ)
    (h : isCounterChannel cfg = false) :
    monitorStep cfg st a cf file (some v)
      = { published := some (pyInt v), state := st, saved := Option.none } := by
  simp [monitorStep, h]

/-- Witness for the amended claim C9 at the generator channel with an
integral fetched value. -/
theorem passthrough_publishes_int_witness :
    (isCounterChannel engineHoursChannel = false)
      ∧ monitorStep engineHoursChannel Option.none 0 Option.none Option.none
          (some 7)
        = { published := some (pyInt 7), state := Option.none,
            saved := Option.none } :=
  ⟨by decide,
    passthrough_publishes_int engineHoursChannel Option.none 0 Option.none
      Option.none 7 (by decide)⟩

/-- Claim C10: checkpoint coherence fails on the first publishing cycle —
with no checkpoint file, fresh count 3 and registry value 100 the loop
publishes 103 and persists checkpoint 3, yet its in-memory last-seen count
stays 0 (not the 3 just persisted); the next cycle re-observing the same
window count 3 therefore double-counts and publishes 106. -/
theorem first_run_checkpoint_incoherence :
    ((counterCycle Option.none 3 (some 100) Option.none).saved = some 3)
      ∧ ((counterCycle Option.none 3 (some 100) Option.none).state.map Prod.snd
          = some 0)
      ∧ ((3 : ℤ) ≠ 0)
      ∧ ((counterCycle (some (103, 0)) 3 (some 103) (some 3)).published
          = some 106) := by
  decide

end RubinNights
